import Mathlib

/-!
Verification development for the PHP (pulsating heat pipe) working-fluid
property calculator (`src/php_property_calculator.py`).

The calculator resolves a thermodynamic state from user inputs, queries an
external property oracle (CoolProp's `PropsSI`) for thermophysical
properties, derives dimensionless numbers, and optionally applies the
Petukhov/Gnielinski forced-convection correlation to the most recent result.

The embedding below models:
  * the property oracle as a function from queries to `Option ℚ`
    (`none` = the oracle raises an error for that query);
  * raw text input fields as `RawField` (empty / non-numeric / numeric);
  * each calculation as a computation in `CalcM`, a state-threading monad
    that records the list of oracle queries issued (in order) and aborts on
    an uncaught error, mirroring Python exception propagation;
  * floating point numbers as exact rationals, with the transcendental
    primitives (`math.log`, `** 0.5`, `** (2/3)`) abstracted into a
    `FloatOps` bundle so that every statement is generic in them.
-/

/-- A `PropsSI(prop, n1, v1, n2, v2, fluid)` query as issued by the program. -/
structure Query where
  prop : String
  n1 : String
  v1 : ℚ
  n2 : String
  v2 : ℚ
  fluid : String
deriving DecidableEq

/-- The property oracle: answers a query or fails (`none`), as CoolProp's
`PropsSI` either returns a value or raises. -/
def Oracle : Type := Query → Option ℚ

/-- Errors surfaced by a calculation: invalid/malformed user input
(Python `ValueError` before or outside oracle calls), or an oracle failure
on a particular query. -/
inductive CalcError where
  | invalidInput (msg : String)
  | propertyLookup (q : Query)
deriving DecidableEq

/-- A calculation that threads the list of issued oracle queries and may
abort with a `CalcError`.  The query trace survives an abort, so "no query
was issued before the failure" is expressible. -/
def CalcM (α : Type) : Type := List Query → Except CalcError α × List Query

def CalcM.pure {α : Type} (a : α) : CalcM α := fun tr => (Except.ok a, tr)

def CalcM.bind {α β : Type} (m : CalcM α) (k : α → CalcM β) : CalcM β := fun tr =>
  match m tr with
  | (Except.ok a, tr1) => k a tr1
  | (Except.error e, tr1) => (Except.error e, tr1)

instance : Monad CalcM where
  pure := CalcM.pure
  bind := CalcM.bind

/-- Run a pure `Except` step inside `CalcM` (no oracle query issued). -/
def liftE {α : Type} (e : Except CalcError α) : CalcM α := fun tr => (e, tr)

/-- Issue a `PropsSI` query; an oracle failure aborts the calculation
(the Python exception propagates). The query is recorded either way. -/
def query (oracle : Oracle) (prop n1 : String) (v1 : ℚ) (n2 : String) (v2 : ℚ)
    (fluid : String) : CalcM ℚ :=
  fun tr =>
    match oracle ⟨prop, n1, v1, n2, v2, fluid⟩ with
    | some v => (Except.ok v, tr ++ [⟨prop, n1, v1, n2, v2, fluid⟩])
    | none => (Except.error (.propertyLookup ⟨prop, n1, v1, n2, v2, fluid⟩),
        tr ++ [⟨prop, n1, v1, n2, v2, fluid⟩])

/-- Issue a `PropsSI` query inside a `try/except` that catches the failure:
the result is `none` instead of an abort (used only for the two-phase
speed-of-sound query, source lines 641-644). -/
def tryQuery (oracle : Oracle) (prop n1 : String) (v1 : ℚ) (n2 : String) (v2 : ℚ)
    (fluid : String) : CalcM (Option ℚ) :=
  fun tr => (Except.ok (oracle ⟨prop, n1, v1, n2, v2, fluid⟩),
    tr ++ [⟨prop, n1, v1, n2, v2, fluid⟩])

/-- Run a calculation on the empty trace. -/
def CalcM.run {α : Type} (m : CalcM α) : Except CalcError α × List Query := m []

/-- A raw Tkinter text field: empty, non-numeric text, or a number.
`float()` on the first two raises `ValueError`; `if s:` is true for the
last two. -/
inductive RawField where
  | empty
  | invalid
  | num (v : ℚ)
deriving DecidableEq

def floatParseMsg : String := "could not convert string to float"

/-- `float(field.get())`: numeric or `ValueError`. -/
def parseFloat : RawField → Except CalcError ℚ
  | .num v => Except.ok v
  | _ => Except.error (.invalidInput floatParseMsg)

def qualityErrMsg : String := "干度输入无效，请输入一个 0 到 1 之间的数字。"

/-- Source lines 614-619: parse the (non-empty) quality string and check
0 ≤ Q ≤ 1; any failure is re-raised as the same `ValueError`. -/
def parseQuality : RawField → Except CalcError ℚ
  | .num v =>
      if 0 ≤ v ∧ v ≤ 1 then Except.ok v
      else Except.error (.invalidInput qualityErrMsg)
  | _ => Except.error (.invalidInput qualityErrMsg)

/-- The GUI inputs read by a calculation. -/
structure Inputs where
  fluid : String
  calc_mode : String
  calc_basis : String
  temp_k : RawField
  press_kpa : RawField
  diameter_mm : RawField
  velocity_ms : RawField
  quality : RawField
deriving DecidableEq

/-- The float primitives the source uses (`math.log`, `x ** 0.5`,
`x ** y`), abstracted: every theorem is generic in them. -/
structure FloatOps where
  log : ℚ → ℚ
  sqrt : ℚ → ℚ
  rpow : ℚ → ℚ → ℚ

/-- `liquid_props` of a saturated dual-branch result (source line 710). -/
structure LiquidProps where
  rho_l : ℚ
  mu_l : ℚ
  cp_l : ℚ
  cv_l : ℚ
  k_l : ℚ
  sigma : ℚ
  h_l : ℚ
  s_l : ℚ
  sound_l : ℚ
deriving DecidableEq

/-- `vapor_props` of a saturated dual-branch result (source line 711). -/
structure VaporProps where
  rho_v : ℚ
  mu_v : ℚ
  cp_v : ℚ
  cv_v : ℚ
  h_v : ℚ
  s_v : ℚ
  sound_v : ℚ
deriving DecidableEq

/-- `dimensionless_numbers` of a saturated dual-branch result (line 713). -/
structure SatDims where
  Re_l : ℚ
  Pr_l : ℚ
  Bo : ℚ
  We_l : ℚ
  Pe_l : ℚ
  Fr_l : ℚ
  Ca_l : ℚ
deriving DecidableEq

/-- `properties` of a two-phase result (source line 659); the speed of
sound is `Option ℚ` because a failed query is recorded as `None`. -/
structure TwoPhaseProps where
  rho : ℚ
  mu : ℚ
  cp : ℚ
  cv : ℚ
  k : ℚ
  h : ℚ
  s : ℚ
  sound : Option ℚ
deriving DecidableEq

/-- `dimensionless_numbers` of a two-phase result (source line 660). -/
structure TwoPhaseDims where
  Re : ℚ
  Pr : ℚ
  Fr : ℚ
  Ca : ℚ
  Pe : ℚ
deriving DecidableEq

/-- `properties` of a non-saturated result (source line 752). -/
structure NonSatProps where
  rho : ℚ
  mu : ℚ
  cp : ℚ
  cv : ℚ
  k : ℚ
  h : ℚ
  s : ℚ
  sound : ℚ
deriving DecidableEq

/-- `dimensionless_numbers` of a non-saturated result (source line 753). -/
structure NonSatDims where
  Re : ℚ
  Pr : ℚ
  Pe : ℚ
  Fr : ℚ
deriving DecidableEq

/-- The tagged result dictionary returned by `_calculate_properties`,
distinguished by its `"mode"` key: `"Saturated"`, `"TwoPhase"` or
`"Non-Saturated"`. -/
inductive CalcResult where
  | saturated (T_K P_kPa : ℚ) (fluid : String) (liquid : LiquidProps)
      (vapor : VaporProps) (h_fg : ℚ) (dims : SatDims)
  | twoPhase (T_K P_kPa Q : ℚ) (fluid : String) (props : TwoPhaseProps)
      (dims : TwoPhaseDims)
  | nonSaturated (T_K P_kPa : ℚ) (fluid : String) (phase : String)
      (props : NonSatProps) (dims : NonSatDims)
deriving DecidableEq

/-- Resolve the saturation state point (T, P) from the calculation basis,
deriving the conjugate variable via the oracle at the given quality
(source lines 622-631 with the supplied Q; lines 665-674 with Q = 0).
Returns (T in K, P in kPa). -/
def resolve_saturation_TP (oracle : Oracle) (inp : Inputs) (Q : ℚ) : CalcM (ℚ × ℚ) := do
  if inp.calc_basis = "T" then
    let T_K ← liftE (parseFloat inp.temp_k)
    let P_Pa ← query oracle "P" "T" T_K "Q" Q inp.fluid
    pure (T_K, P_Pa / 1000)
  else
    let P_kPa ← liftE (parseFloat inp.press_kpa)
    let T_K ← query oracle "T" "P" (P_kPa * 1000) "Q" Q inp.fluid
    pure (T_K, P_kPa)

/-- The quality-supplied branch of `_calculate_saturated_properties` after
the quality has been parsed and validated (source lines 621-661):
two-phase mixture properties at quality `Q`. -/
def twophase_at (ops : FloatOps) (oracle : Oracle) (inp : Inputs)
    (Q D_m u_ms : ℚ) : CalcM CalcResult := do
  let (T_K, P_kPa) ← resolve_saturation_TP oracle inp Q
  let rho ← query oracle "D" "T" T_K "Q" Q inp.fluid
  let mu ← query oracle "V" "T" T_K "Q" Q inp.fluid
  let cp ← query oracle "C" "T" T_K "Q" Q inp.fluid
  let cv ← query oracle "CVMASS" "T" T_K "Q" Q inp.fluid
  let k ← query oracle "L" "T" T_K "Q" Q inp.fluid
  let h ← query oracle "H" "T" T_K "Q" Q inp.fluid
  let s ← query oracle "S" "T" T_K "Q" Q inp.fluid
  let sound ← tryQuery oracle "A" "T" T_K "Q" Q inp.fluid
  let Re := if mu ≠ 0 then rho * u_ms * D_m / mu else 0
  let Pr := if k ≠ 0 then cp * mu / k else 0
  let Pe := Re * Pr
  let Fr := if 9.81 * D_m > 0 then u_ms / ops.sqrt (9.81 * D_m) else 0
  let sigma ← query oracle "I" "T" T_K "Q" 0 inp.fluid
  let Ca := if sigma ≠ 0 then mu * u_ms / sigma else 0
  pure (.twoPhase T_K P_kPa Q inp.fluid ⟨rho, mu, cp, cv, k, h, s, sound⟩
    ⟨Re, Pr, Fr, Ca, Pe⟩)

/-- The quality-supplied branch of `_calculate_saturated_properties`
(source lines 612-661): parse and validate the quality string
(lines 614-619), then compute the two-phase mixture record at it. -/
def calculate_twophase_properties (ops : FloatOps) (oracle : Oracle) (inp : Inputs)
    (D_m u_ms : ℚ) : CalcM CalcResult := do
  let Q ← liftE (parseQuality inp.quality)
  twophase_at ops oracle inp Q D_m u_ms

/-- The no-quality branch of `_calculate_saturated_properties`
(source lines 663-714): paired saturated liquid (Q=0) and vapor (Q=1)
properties. -/
def calculate_saturated_dual_properties (ops : FloatOps) (oracle : Oracle)
    (inp : Inputs) (D_m u_ms : ℚ) : CalcM CalcResult := do
  let (T_K, P_kPa) ← resolve_saturation_TP oracle inp 0
  let rho_l ← query oracle "D" "T" T_K "Q" 0 inp.fluid
  let mu_l ← query oracle "V" "T" T_K "Q" 0 inp.fluid
  let cp_l ← query oracle "C" "T" T_K "Q" 0 inp.fluid
  let cv_l ← query oracle "CVMASS" "T" T_K "Q" 0 inp.fluid
  let k_l ← query oracle "L" "T" T_K "Q" 0 inp.fluid
  let sigma ← query oracle "I" "T" T_K "Q" 0 inp.fluid
  let h_l ← query oracle "H" "T" T_K "Q" 0 inp.fluid
  let s_l ← query oracle "S" "T" T_K "Q" 0 inp.fluid
  let sound_l ← query oracle "A" "T" T_K "Q" 0 inp.fluid
  let rho_v ← query oracle "D" "T" T_K "Q" 1 inp.fluid
  let mu_v ← query oracle "V" "T" T_K "Q" 1 inp.fluid
  let cp_v ← query oracle "C" "T" T_K "Q" 1 inp.fluid
  let cv_v ← query oracle "CVMASS" "T" T_K "Q" 1 inp.fluid
  let h_v ← query oracle "H" "T" T_K "Q" 1 inp.fluid
  let s_v ← query oracle "S" "T" T_K "Q" 1 inp.fluid
  let sound_v ← query oracle "A" "T" T_K "Q" 1 inp.fluid
  let h_fg := h_v - h_l
  let Re_l := if mu_l ≠ 0 then rho_l * u_ms * D_m / mu_l else 0
  let Pr_l := if k_l ≠ 0 then cp_l * mu_l / k_l else 0
  let Bo := if sigma ≠ 0 then 9.81 * (rho_l - rho_v) * D_m ^ 2 / sigma else 0
  let We_l := if sigma ≠ 0 then rho_l * u_ms ^ 2 * D_m / sigma else 0
  let Pe_l := Re_l * Pr_l
  let Fr_l := if 9.81 * D_m > 0 then u_ms / ops.sqrt (9.81 * D_m) else 0
  let Ca_l := if sigma ≠ 0 then mu_l * u_ms / sigma else 0
  pure (.saturated T_K P_kPa inp.fluid
    ⟨rho_l, mu_l, cp_l, cv_l, k_l, sigma, h_l, s_l, sound_l⟩
    ⟨rho_v, mu_v, cp_v, cv_v, h_v, s_v, sound_v⟩ h_fg
    ⟨Re_l, Pr_l, Bo, We_l, Pe_l, Fr_l, Ca_l⟩)

/-- `_calculate_saturated_properties` (source lines 607-714): dispatch on
whether the quality string is non-empty (`if quality_str:`). -/
def calculate_saturated_properties (ops : FloatOps) (oracle : Oracle) (inp : Inputs)
    (D_m u_ms : ℚ) : CalcM CalcResult :=
  if inp.quality = RawField.empty then
    calculate_saturated_dual_properties ops oracle inp D_m u_ms
  else
    calculate_twophase_properties ops oracle inp D_m u_ms

/-- `_calculate_nonsaturated_properties` (source lines 716-754). -/
def calculate_nonsaturated_properties (ops : FloatOps) (oracle : Oracle)
    (inp : Inputs) (D_m u_ms : ℚ) : CalcM CalcResult := do
  let T_K ← liftE (parseFloat inp.temp_k)
  let P_kPa ← liftE (parseFloat inp.press_kpa)
  let P_Pa := P_kPa * 1000
  let T_sat ← query oracle "T" "P" P_Pa "Q" 0 inp.fluid
  let phase := if T_K < T_sat then "Subcooled Liquid" else "Superheated Vapor"
  let rho ← query oracle "D" "T" T_K "P" P_Pa inp.fluid
  let mu ← query oracle "V" "T" T_K "P" P_Pa inp.fluid
  let cp ← query oracle "C" "T" T_K "P" P_Pa inp.fluid
  let cv ← query oracle "CVMASS" "T" T_K "P" P_Pa inp.fluid
  let k ← query oracle "L" "T" T_K "P" P_Pa inp.fluid
  let h ← query oracle "H" "T" T_K "P" P_Pa inp.fluid
  let s ← query oracle "S" "T" T_K "P" P_Pa inp.fluid
  let sound ← query oracle "A" "T" T_K "P" P_Pa inp.fluid
  let Re := if mu ≠ 0 then rho * u_ms * D_m / mu else 0
  let Pr := if k ≠ 0 then cp * mu / k else 0
  let Pe := Re * Pr
  let Fr := if 9.81 * D_m > 0 then u_ms / ops.sqrt (9.81 * D_m) else 0
  pure (.nonSaturated T_K P_kPa inp.fluid phase ⟨rho, mu, cp, cv, k, h, s, sound⟩
    ⟨Re, Pr, Pe, Fr⟩)

/-- `_calculate_properties` (source lines 586-605): parse the common
geometry/flow inputs, then dispatch on the calculation mode.  Any error
is surfaced to the caller (the Python `except` shows a dialog and
returns `None`). -/
def calculate_properties (ops : FloatOps) (oracle : Oracle) (inp : Inputs) :
    CalcM CalcResult := do
  let dmm ← liftE (parseFloat inp.diameter_mm)
  let D_m := dmm / 1000
  let u_ms ← liftE (parseFloat inp.velocity_ms)
  if inp.calc_mode = "Saturated" then
    calculate_saturated_properties ops oracle inp D_m u_ms
  else
    calculate_nonsaturated_properties ops oracle inp D_m u_ms

/-- `on_calculate` (source lines 227-240), restricted to the last-result
slot: a successful calculation overwrites `last_results`, a failed one
leaves it unchanged. -/
def on_calculate (ops : FloatOps) (oracle : Oracle) (inp : Inputs)
    (last_results : Option CalcResult) : Option CalcResult :=
  match ((calculate_properties ops oracle inp).run).1 with
  | Except.ok r => some r
  | Except.error _ => last_results

/-- `_calculate_darcy_f_petukhov` (source lines 501-503). -/
def calculate_darcy_f_petukhov (ops : FloatOps) (Re : ℚ) : ℚ :=
  (0.790 * ops.log Re - 1.64) ^ (-2 : ℤ)

/-- A Gnielinski applicability-range violation (source lines 555-559). -/
inductive RangeViolation where
  | reOut (Re : ℚ)
  | prOut (Pr : ℚ)
deriving DecidableEq

/-- Outcome of the `on_calculate_h_nu` pass. -/
inductive HNuOutcome where
  | noData
  | notApplicable
  | calcError (msg : String)
  | success (f Nu h : ℚ) (warnings : List RangeViolation)
deriving DecidableEq

def diameterErrMsg : String := "管内径必须为正值。"

def nuDenomErrMsg : String := "计算Nu时分母为零。"

/-- The body of `on_calculate_h_nu`'s `try` block after Re, Pr, k have been
extracted (source lines 522-578): parse the diameter, check it is
positive, flag applicability-range violations (advisory), and compute the
Petukhov friction factor, Gnielinski Nusselt number and heat-transfer
coefficient; a zero Gnielinski denominator raises. -/
def gnielinski_from (ops : FloatOps) (diameter_mm : RawField) (Re Pr k : ℚ) :
    HNuOutcome :=
  match parseFloat diameter_mm with
  | Except.error _ => .calcError floatParseMsg
  | Except.ok d =>
    let D_m := d / 1000
    if D_m ≤ 0 then .calcError diameterErrMsg
    else
      let warnings :=
        (if ¬ (3000 < Re ∧ Re < 5000000) then [RangeViolation.reOut Re] else []) ++
        (if ¬ (0.5 ≤ Pr ∧ Pr ≤ 2000) then [RangeViolation.prOut Pr] else [])
      let f := calculate_darcy_f_petukhov ops Re
      let numerator := f / 8 * (Re - 1000) * Pr
      let denominator := 1 + 12.7 * ops.sqrt (f / 8) * (ops.rpow Pr (2 / 3) - 1)
      if denominator = 0 then .calcError nuDenomErrMsg
      else
        let Nu := numerator / denominator
        let h := Nu * k / D_m
        .success f Nu h warnings

/-- `on_calculate_h_nu` (source lines 505-584): no prior result is a
warning; a two-phase prior result is rejected as not applicable; a
saturated prior result uses the liquid-branch Re, Pr, k; a non-saturated
prior result uses its single-phase Re, Pr, k. -/
def on_calculate_h_nu (ops : FloatOps) (last_results : Option CalcResult)
    (diameter_mm : RawField) : HNuOutcome :=
  match last_results with
  | none => .noData
  | some (.twoPhase _ _ _ _ _ _) => .notApplicable
  | some (.saturated _ _ _ liquid _ _ dims) =>
      gnielinski_from ops diameter_mm dims.Re_l dims.Pr_l liquid.k_l
  | some (.nonSaturated _ _ _ _ props dims) =>
      gnielinski_from ops diameter_mm dims.Re dims.Pr props.k

/-! ## Generic lemmas about `CalcM` computations -/

theorem snd_query (oracle : Oracle) (p n1 : String) (v1 : ℚ) (n2 : String) (v2 : ℚ)
    (fl : String) (tr : List Query) :
    (query oracle p n1 v1 n2 v2 fl tr).2 = tr ++ [⟨p, n1, v1, n2, v2, fl⟩] := by
  unfold query
  rcases oracle ⟨p, n1, v1, n2, v2, fl⟩ with _ | v <;> rfl

/-- Every query a calculation ever adds to the trace satisfies `P`. -/
def TraceAll (P : Query → Prop) {α : Type} (m : CalcM α) : Prop :=
  ∀ tr, ∀ q ∈ (m tr).2, q ∈ tr ∨ P q

theorem traceAll_pure {α : Type} (P : Query → Prop) (a : α) : TraceAll P (pure a) :=
  fun _ _ hq => Or.inl hq

theorem traceAll_bind {α β : Type} (P : Query → Prop) (m : CalcM α) (k : α → CalcM β)
    (hm : TraceAll P m) (hk : ∀ a, TraceAll P (k a)) : TraceAll P (m >>= k) := by
  intro tr q hq
  have hq' : q ∈ (CalcM.bind m k tr).2 := hq
  unfold CalcM.bind at hq'
  rcases h : m tr with ⟨e, tr1⟩
  rw [h] at hq'
  rcases e with er | a
  · exact hm tr q (by rw [h]; exact hq')
  · rcases hk a tr1 q hq' with h3 | h3
    · exact hm tr q (by rw [h]; exact h3)
    · exact Or.inr h3

theorem traceAll_liftE_bind {α β : Type} (P : Query → Prop) (e : Except CalcError α)
    (k : α → CalcM β) (hk : ∀ a, e = Except.ok a → TraceAll P (k a)) :
    TraceAll P (liftE e >>= k) := by
  rcases e with er | a
  · exact fun _ _ hq => Or.inl hq
  · exact fun tr q hq => hk a rfl tr q hq

theorem traceAll_query (P : Query → Prop) (oracle : Oracle) (p n1 : String) (v1 : ℚ)
    (n2 : String) (v2 : ℚ) (fl : String) (h : P ⟨p, n1, v1, n2, v2, fl⟩) :
    TraceAll P (query oracle p n1 v1 n2 v2 fl) := by
  intro tr q hq
  rw [snd_query] at hq
  rcases List.mem_append.mp hq with hq | hq
  · exact Or.inl hq
  · rw [List.mem_singleton.mp hq]
    exact Or.inr h

theorem traceAll_tryQuery (P : Query → Prop) (oracle : Oracle) (p n1 : String) (v1 : ℚ)
    (n2 : String) (v2 : ℚ) (fl : String) (h : P ⟨p, n1, v1, n2, v2, fl⟩) :
    TraceAll P (tryQuery oracle p n1 v1 n2 v2 fl) := by
  intro tr q hq
  rcases List.mem_append.mp hq with hq | hq
  · exact Or.inl hq
  · rw [List.mem_singleton.mp hq]
    exact Or.inr h

theorem traceAll_ite (P : Query → Prop) {α : Type} (c : Prop) [Decidable c]
    (m1 m2 : CalcM α) (h1 : TraceAll P m1) (h2 : TraceAll P m2) :
    TraceAll P (if c then m1 else m2) := by
  by_cases hc : c
  · rw [if_pos hc]; exact h1
  · rw [if_neg hc]; exact h2

/-- Every query a SUCCESSFUL calculation adds to the trace satisfies `P`. -/
def OkAll (P : Query → Prop) {α : Type} (m : CalcM α) : Prop :=
  ∀ tr a tr', m tr = (Except.ok a, tr') → ∀ q ∈ tr', q ∈ tr ∨ P q

theorem okAll_pure {α : Type} (P : Query → Prop) (a : α) : OkAll P (pure a) := by
  intro tr b tr' h q hq
  have h2 : (Except.ok a, tr) = ((Except.ok b : Except CalcError α), tr') := h
  rw [← (Prod.mk.injEq _ _ _ _).mp h2 |>.2] at hq
  exact Or.inl hq

theorem okAll_liftE {α : Type} (P : Query → Prop) (e : Except CalcError α) :
    OkAll P (liftE e) := by
  intro tr b tr' h q hq
  have h2 : (e, tr) = (Except.ok b, tr') := h
  rw [← (Prod.mk.injEq _ _ _ _).mp h2 |>.2] at hq
  exact Or.inl hq

theorem okAll_bind {α β : Type} (P : Query → Prop) (m : CalcM α) (k : α → CalcM β)
    (hm : OkAll P m) (hk : ∀ a, OkAll P (k a)) : OkAll P (m >>= k) := by
  intro tr b tr' hrun q hq
  have hrun' : CalcM.bind m k tr = (Except.ok b, tr') := hrun
  unfold CalcM.bind at hrun'
  rcases h : m tr with ⟨e, tr1⟩
  rw [h] at hrun'
  rcases e with er | a
  · exact absurd ((Prod.mk.injEq _ _ _ _).mp hrun').1 (fun hcon => Except.noConfusion hcon)
  · rcases hk a tr1 b tr' hrun' q hq with h3 | h3
    · exact hm tr a tr1 h q h3
    · exact Or.inr h3

theorem okAll_query (P : Query → Prop) (oracle : Oracle) (p n1 : String) (v1 : ℚ)
    (n2 : String) (v2 : ℚ) (fl : String)
    (h : ∀ v, oracle ⟨p, n1, v1, n2, v2, fl⟩ = some v → P ⟨p, n1, v1, n2, v2, fl⟩) :
    OkAll P (query oracle p n1 v1 n2 v2 fl) := by
  intro tr b tr' hrun q hq
  unfold query at hrun
  rcases ho : oracle ⟨p, n1, v1, n2, v2, fl⟩ with _ | v
  · rw [ho] at hrun
    exact absurd ((Prod.mk.injEq _ _ _ _).mp hrun).1 (fun hcon => Except.noConfusion hcon)
  · rw [ho] at hrun
    rw [← ((Prod.mk.injEq _ _ _ _).mp hrun).2] at hq
    rcases List.mem_append.mp hq with hq | hq
    · exact Or.inl hq
    · rw [List.mem_singleton.mp hq]
      exact Or.inr (h v ho)

theorem okAll_tryQuery (P : Query → Prop) (oracle : Oracle) (p n1 : String) (v1 : ℚ)
    (n2 : String) (v2 : ℚ) (fl : String) (h : P ⟨p, n1, v1, n2, v2, fl⟩) :
    OkAll P (tryQuery oracle p n1 v1 n2 v2 fl) := by
  intro tr b tr' hrun q hq
  have h2 : (Except.ok (oracle ⟨p, n1, v1, n2, v2, fl⟩), tr ++ [⟨p, n1, v1, n2, v2, fl⟩])
      = (Except.ok b, tr') := hrun
  rw [← ((Prod.mk.injEq _ _ _ _).mp h2).2] at hq
  rcases List.mem_append.mp hq with hq | hq
  · exact Or.inl hq
  · rw [List.mem_singleton.mp hq]
    exact Or.inr h

theorem okAll_ite (P : Query → Prop) {α : Type} (c : Prop) [Decidable c]
    (m1 m2 : CalcM α) (h1 : OkAll P m1) (h2 : OkAll P m2) :
    OkAll P (if c then m1 else m2) := by
  by_cases hc : c
  · rw [if_pos hc]; exact h1
  · rw [if_neg hc]; exact h2

theorem parseQuality_ok (v : ℚ) (h0 : 0 ≤ v) (h1 : v ≤ 1) :
    parseQuality (RawField.num v) = Except.ok v := by
  simp only [parseQuality]
  rw [if_pos ⟨h0, h1⟩]

theorem parseQuality_err (v : ℚ) (h : ¬ (0 ≤ v ∧ v ≤ 1)) :
    parseQuality (RawField.num v) = Except.error (CalcError.invalidInput qualityErrMsg) := by
  simp only [parseQuality]
  rw [if_neg h]

theorem twophase_eval (ops : FloatOps) (oracle : Oracle) (inp : Inputs) (qv D u : ℚ)
    (tr : List Query) (hq : parseQuality inp.quality = Except.ok qv) :
    calculate_twophase_properties ops oracle inp D u tr
      = twophase_at ops oracle inp qv D u tr := by
  show CalcM.bind (liftE (parseQuality inp.quality)) _ tr = _
  rw [hq]
  rfl

theorem twophase_error (ops : FloatOps) (oracle : Oracle) (inp : Inputs) (e : CalcError)
    (D u : ℚ) (tr : List Query) (hq : parseQuality inp.quality = Except.error e) :
    calculate_twophase_properties ops oracle inp D u tr = (Except.error e, tr) := by
  show CalcM.bind (liftE (parseQuality inp.quality)) _ tr = _
  rw [hq]
  rfl

/-- An oracle that answers every query except speed of sound (`'A'`),
whose failure models CoolProp's "speed of sound undefined in the
two-phase region" error. -/
def oracleNoSound (f : Query → ℚ) : Oracle :=
  fun q => if q.prop = "A" then none else some (f q)

/-- Degenerate but fully computable float primitives, used to instantiate
theorems at concrete inputs. -/
def ops0 : FloatOps := ⟨fun _ => 0, fun _ => 0, fun _ _ => 0⟩

/-- A total oracle answering every query with 1. -/
def oracle1 : Oracle := fun _ => some 1

/-- Concrete inputs: water, saturated mode, temperature basis, quality 1
(supplied and inside [0, 1]). -/
def inputsTP : Inputs :=
  ⟨"Water", "Saturated", "T", .num 373, .num 100, .num 2, .num 1, .num 1⟩

/-! ## Claims -/

/-- C1 (amended): in a saturated-mode calculation with a quality string
supplied (parsing to `qv`), every property-oracle query issued carries the
supplied quality as its `Q` parameter, EXCEPT the surface-tension (`'I'`)
query used for the capillary number, which is always issued at Q = 0
(source line 653). -/
theorem twophase_queries_at_supplied_quality (ops : FloatOps) (oracle : Oracle)
    (fl basis : String) (tK pK dmm vms : RawField) (qv : ℚ) :
    List.Forall
      (fun q => (q.prop = "I" ∧ q.n2 = "Q" ∧ q.v2 = 0) ∨ (q.n2 = "Q" ∧ q.v2 = qv))
      ((calculate_properties ops oracle
          ⟨fl, "Saturated", basis, tK, pK, dmm, vms, RawField.num qv⟩).run).2 := by
  rw [List.forall_iff_forall_mem]
  intro q hq
  have hta : TraceAll
      (fun q => (q.prop = "I" ∧ q.n2 = "Q" ∧ q.v2 = 0) ∨ (q.n2 = "Q" ∧ q.v2 = qv))
      (calculate_properties ops oracle
        ⟨fl, "Saturated", basis, tK, pK, dmm, vms, RawField.num qv⟩) := by
    unfold calculate_properties
    apply traceAll_liftE_bind
    intro dmv _
    apply traceAll_liftE_bind
    intro uv _
    rw [if_pos rfl]
    show TraceAll _ (calculate_saturated_properties ops oracle _ _ _)
    unfold calculate_saturated_properties
    rw [if_neg (fun hcon => RawField.noConfusion hcon)]
    unfold calculate_twophase_properties
    apply traceAll_liftE_bind
    intro Q hQ
    have hQq : Q = qv := by
      by_cases hc : 0 ≤ qv ∧ qv ≤ 1
      · rw [parseQuality_ok qv hc.1 hc.2] at hQ
        injection hQ with h
        exact h.symm
      · rw [parseQuality_err qv hc] at hQ
        exact absurd hQ (fun hcon => Except.noConfusion hcon)
    subst hQq
    unfold twophase_at resolve_saturation_TP
    apply traceAll_bind
    · apply traceAll_ite
      · apply traceAll_liftE_bind
        intro T _
        apply traceAll_bind _ _ _ (traceAll_query _ _ _ _ _ _ _ _ (Or.inr ⟨rfl, rfl⟩))
        intro P_Pa
        exact traceAll_pure _ _
      · apply traceAll_liftE_bind
        intro Pk _
        apply traceAll_bind _ _ _ (traceAll_query _ _ _ _ _ _ _ _ (Or.inr ⟨rfl, rfl⟩))
        intro T
        exact traceAll_pure _ _
    · rintro ⟨T_K, P_kPa⟩
      apply traceAll_bind _ _ _ (traceAll_query _ _ _ _ _ _ _ _ (Or.inr ⟨rfl, rfl⟩))
      intro rho
      apply traceAll_bind _ _ _ (traceAll_query _ _ _ _ _ _ _ _ (Or.inr ⟨rfl, rfl⟩))
      intro mu
      apply traceAll_bind _ _ _ (traceAll_query _ _ _ _ _ _ _ _ (Or.inr ⟨rfl, rfl⟩))
      intro cp
      apply traceAll_bind _ _ _ (traceAll_query _ _ _ _ _ _ _ _ (Or.inr ⟨rfl, rfl⟩))
      intro cv
      apply traceAll_bind _ _ _ (traceAll_query _ _ _ _ _ _ _ _ (Or.inr ⟨rfl, rfl⟩))
      intro k
      apply traceAll_bind _ _ _ (traceAll_query _ _ _ _ _ _ _ _ (Or.inr ⟨rfl, rfl⟩))
      intro h
      apply traceAll_bind _ _ _ (traceAll_query _ _ _ _ _ _ _ _ (Or.inr ⟨rfl, rfl⟩))
      intro s
      apply traceAll_bind _ _ _ (traceAll_tryQuery _ _ _ _ _ _ _ _ (Or.inr ⟨rfl, rfl⟩))
      intro sound
      apply traceAll_bind _ _ _ (traceAll_query _ _ _ _ _ _ _ _ (Or.inl ⟨rfl, rfl, rfl⟩))
      intro sigma
      exact traceAll_pure _ _
  rcases hta [] q hq with h | h
  · exact absurd h (List.not_mem_nil q)
  · exact h

/-- C1 counterexample: with quality Q = 1 supplied (within [0, 1]) and a
total oracle, the saturated-mode run issues a query — the surface-tension
query `'I'` — whose `Q` parameter is 0, not the supplied value, so not
every oracle query of the calculation is parameterized with the supplied
quality. -/
theorem twophase_sigma_query_not_at_supplied_quality :
    ∃ q ∈ ((calculate_properties ops0 oracle1 inputsTP).run).2,
      q.prop = "I" ∧ q.v2 = 0 ∧ ¬ (q.n2 = "Q" ∧ q.v2 = (1 : ℚ)) := by decide

/-- C3: a non-saturated calculation with inputs T (K) and P (kPa) labels the
phase by comparing T with the saturation temperature obtained from the
oracle at P (Pa) with Q = 0: strictly below is "Subcooled Liquid",
otherwise — including the tie T = Tsat — "Superheated Vapor". -/
theorem nonsaturated_phase_classification (ops : FloatOps) (f : Query → ℚ)
    (fl basis : String) (t p d u : ℚ) (qf : RawField) :
    ∃ props dims,
      ((calculate_properties ops (fun q => some (f q))
          ⟨fl, "Non-Saturated", basis, .num t, .num p, .num d, .num u, qf⟩).run).1
        = Except.ok (.nonSaturated t p fl
            (if t < f ⟨"T", "P", p * 1000, "Q", 0, fl⟩ then "Subcooled Liquid"
             else "Superheated Vapor") props dims) := ⟨_, _, rfl⟩

/-- C4: a supplied quality outside [0, 1] makes the saturated-mode
calculation fail with the invalid-quality input error, with an empty query
trace: no property-oracle query is issued, and the value is not clamped. -/
theorem out_of_range_quality_rejected (ops : FloatOps) (oracle : Oracle)
    (fl basis : String) (tK pK : RawField) (d u qv : ℚ)
    (h : ¬ (0 ≤ qv ∧ qv ≤ 1)) :
    (calculate_properties ops oracle
        ⟨fl, "Saturated", basis, tK, pK, .num d, .num u, .num qv⟩).run
      = (Except.error (CalcError.invalidInput qualityErrMsg), []) := by
  show calculate_twophase_properties ops oracle
      ⟨fl, "Saturated", basis, tK, pK, .num d, .num u, .num qv⟩ (d / 1000) u [] = _
  exact twophase_error ops oracle _ _ _ _ [] (parseQuality_err qv h)

/-- C4 witness: quality 2 (out of range) on water in saturated mode is
rejected with the invalid-quality error and an empty query trace. -/
theorem out_of_range_quality_rejected_witness :
    (calculate_properties ops0 oracle1
        ⟨"Water", "Saturated", "T", .num 373, .num 100, .num 2, .num 1, .num 2⟩).run
      = (Except.error (CalcError.invalidInput qualityErrMsg), []) :=
  out_of_range_quality_rejected ops0 oracle1 "Water" "T" (.num 373) (.num 100) 2 1 2
    (by decide)

/-- C5: requesting the convection correlation on a stored two-phase
(quality-supplied) result always yields the not-applicable outcome; no
numeric friction factor, Nusselt number or heat-transfer coefficient is
produced. -/
theorem correlate_two_phase_not_applicable (ops : FloatOps) (t p qv : ℚ) (fl : String)
    (props : TwoPhaseProps) (dims : TwoPhaseDims) (dmm : RawField) :
    on_calculate_h_nu ops (some (.twoPhase t p qv fl props dims)) dmm
      = HNuOutcome.notApplicable := rfl

/-- C9: if the main calculation fails with any error, the stored
last-result slot is unchanged, and a subsequent convection-correlation
request computes from the previously stored result. -/
theorem failed_calculation_preserves_last_results (ops : FloatOps) (oracle : Oracle)
    (inp : Inputs) (last : Option CalcResult) (dmm : RawField) (e : CalcError)
    (h : ((calculate_properties ops oracle inp).run).1 = Except.error e) :
    on_calculate ops oracle inp last = last ∧
    on_calculate_h_nu ops (on_calculate ops oracle inp last) dmm
      = on_calculate_h_nu ops last dmm := by
  unfold on_calculate
  rw [h]
  exact ⟨rfl, rfl⟩

/-- Inputs whose temperature field is non-numeric: the saturated
calculation fails while parsing it. -/
def inputsBad : Inputs := ⟨"Water", "Saturated", "T", .invalid, .empty, .num 2, .num 1, .empty⟩

/-- A previously stored (non-saturated) result record. -/
def resPrev : CalcResult :=
  .nonSaturated 300 100 "Water" "Subcooled Liquid" ⟨1, 1, 1, 1, 1, 1, 1, 1⟩ ⟨1, 1, 1, 1⟩

/-- C9 witness: a calculation failing on a non-numeric temperature leaves
the previously stored result in place for the correlation pass. -/
theorem failed_calculation_preserves_last_results_witness :
    on_calculate ops0 oracle1 inputsBad (some resPrev) = some resPrev ∧
    on_calculate_h_nu ops0 (on_calculate ops0 oracle1 inputsBad (some resPrev)) (.num 2)
      = on_calculate_h_nu ops0 (some resPrev) (.num 2) :=
  failed_calculation_preserves_last_results ops0 oracle1 inputsBad (some resPrev) (.num 2)
    (CalcError.invalidInput floatParseMsg) rfl

/-- C10: the correlation on a saturated dual-branch prior result is
computed from the liquid-branch values Re_l, Pr_l, k_l alone; changing the
vapor-branch record does not change the outcome. -/
theorem correlate_saturated_uses_liquid_branch (ops : FloatOps) (t p : ℚ) (fl : String)
    (liquid : LiquidProps) (vapor vapor' : VaporProps) (h_fg : ℚ) (dims : SatDims)
    (dmm : RawField) :
    on_calculate_h_nu ops (some (.saturated t p fl liquid vapor h_fg dims)) dmm
      = gnielinski_from ops dmm dims.Re_l dims.Pr_l liquid.k_l ∧
    on_calculate_h_nu ops (some (.saturated t p fl liquid vapor h_fg dims)) dmm
      = on_calculate_h_nu ops (some (.saturated t p fl liquid vapor' h_fg dims)) dmm :=
  ⟨rfl, rfl⟩

/-- C6: on an applicable prior result (saturated dual-branch, using the
liquid Re, Pr, k, or non-saturated) with diameter d mm > 0, the
correlation computes exactly the Petukhov friction factor
f = (0.790·ln Re − 1.64)⁻², the Gnielinski Nusselt number
Nu = (f/8)(Re − 1000)Pr / (1 + 12.7·√(f/8)·(Pr^(2/3) − 1)) and
h = Nu·k/D (D = d/1000 m), and fails with the degenerate-denominator
error precisely when the Gnielinski denominator is 0. -/
theorem gnielinski_petukhov_formulas :
    (∀ (ops : FloatOps) (t p : ℚ) (fl : String) (liquid : LiquidProps)
        (vapor : VaporProps) (h_fg : ℚ) (dims : SatDims) (d : ℚ), 0 < d →
      on_calculate_h_nu ops (some (.saturated t p fl liquid vapor h_fg dims)) (.num d)
        = (let f := (0.790 * ops.log dims.Re_l - 1.64) ^ (-2 : ℤ)
           let den := 1 + 12.7 * ops.sqrt (f / 8) * (ops.rpow dims.Pr_l (2 / 3) - 1)
           if den = 0 then HNuOutcome.calcError nuDenomErrMsg
           else HNuOutcome.success f (f / 8 * (dims.Re_l - 1000) * dims.Pr_l / den)
             (f / 8 * (dims.Re_l - 1000) * dims.Pr_l / den * liquid.k_l / (d / 1000))
             ((if ¬ (3000 < dims.Re_l ∧ dims.Re_l < 5000000)
                 then [RangeViolation.reOut dims.Re_l] else []) ++
              (if ¬ (0.5 ≤ dims.Pr_l ∧ dims.Pr_l ≤ 2000)
                 then [RangeViolation.prOut dims.Pr_l] else [])))) ∧
    (∀ (ops : FloatOps) (t p : ℚ) (fl ph : String) (props : NonSatProps)
        (dims : NonSatDims) (d : ℚ), 0 < d →
      on_calculate_h_nu ops (some (.nonSaturated t p fl ph props dims)) (.num d)
        = (let f := (0.790 * ops.log dims.Re - 1.64) ^ (-2 : ℤ)
           let den := 1 + 12.7 * ops.sqrt (f / 8) * (ops.rpow dims.Pr (2 / 3) - 1)
           if den = 0 then HNuOutcome.calcError nuDenomErrMsg
           else HNuOutcome.success f (f / 8 * (dims.Re - 1000) * dims.Pr / den)
             (f / 8 * (dims.Re - 1000) * dims.Pr / den * props.k / (d / 1000))
             ((if ¬ (3000 < dims.Re ∧ dims.Re < 5000000)
                 then [RangeViolation.reOut dims.Re] else []) ++
              (if ¬ (0.5 ≤ dims.Pr ∧ dims.Pr ≤ 2000)
                 then [RangeViolation.prOut dims.Pr] else [])))) := by
  constructor
  · intro ops t p fl liquid vapor h_fg dims d hd
    show gnielinski_from ops (.num d) dims.Re_l dims.Pr_l liquid.k_l = _
    simp only [gnielinski_from, parseFloat]
    rw [if_neg (not_le.mpr (div_pos hd (by norm_num)))]
    rfl
  · intro ops t p fl ph props dims d hd
    show gnielinski_from ops (.num d) dims.Re dims.Pr props.k = _
    simp only [gnielinski_from, parseFloat]
    rw [if_neg (not_le.mpr (div_pos hd (by norm_num)))]
    rfl

/-- C7: the Gnielinski validity check is advisory and non-fatal: whenever
the diameter is positive and the Gnielinski denominator is nonzero, the
correlation returns numeric results together with the violation list, and
a Reynolds (resp. Prandtl) violation is flagged exactly when Re is outside
the open interval (3000, 5·10⁶) (resp. Pr outside the closed interval
[0.5, 2000]); both saturated and non-saturated prior results feed this
same computation. -/
theorem gnielinski_validity_check_advisory :
    (∀ (ops : FloatOps) (Re Pr k d : ℚ), 0 < d →
        1 + 12.7 * ops.sqrt (calculate_darcy_f_petukhov ops Re / 8)
          * (ops.rpow Pr (2 / 3) - 1) ≠ 0 →
      ∃ fv Nuv hv w,
        gnielinski_from ops (.num d) Re Pr k = HNuOutcome.success fv Nuv hv w ∧
        (RangeViolation.reOut Re ∈ w ↔ ¬ (3000 < Re ∧ Re < 5000000)) ∧
        (RangeViolation.prOut Pr ∈ w ↔ ¬ (0.5 ≤ Pr ∧ Pr ≤ 2000))) ∧
    (∀ (ops : FloatOps) (t p : ℚ) (fl : String) (liquid : LiquidProps)
        (vapor : VaporProps) (h_fg : ℚ) (dims : SatDims) (dmm : RawField),
      on_calculate_h_nu ops (some (.saturated t p fl liquid vapor h_fg dims)) dmm
        = gnielinski_from ops dmm dims.Re_l dims.Pr_l liquid.k_l) ∧
    (∀ (ops : FloatOps) (t p : ℚ) (fl ph : String) (props : NonSatProps)
        (dims : NonSatDims) (dmm : RawField),
      on_calculate_h_nu ops (some (.nonSaturated t p fl ph props dims)) dmm
        = gnielinski_from ops dmm dims.Re dims.Pr props.k) := by
  refine ⟨?_, fun ops t p fl liquid vapor h_fg dims dmm => rfl,
    fun ops t p fl ph props dims dmm => rfl⟩
  intro ops Re Pr k d hd hden
  refine ⟨calculate_darcy_f_petukhov ops Re,
    calculate_darcy_f_petukhov ops Re / 8 * (Re - 1000) * Pr /
      (1 + 12.7 * ops.sqrt (calculate_darcy_f_petukhov ops Re / 8)
        * (ops.rpow Pr (2 / 3) - 1)),
    calculate_darcy_f_petukhov ops Re / 8 * (Re - 1000) * Pr /
      (1 + 12.7 * ops.sqrt (calculate_darcy_f_petukhov ops Re / 8)
        * (ops.rpow Pr (2 / 3) - 1)) * k / (d / 1000),
    (if ¬ (3000 < Re ∧ Re < 5000000) then [RangeViolation.reOut Re] else []) ++
      (if ¬ (0.5 ≤ Pr ∧ Pr ≤ 2000) then [RangeViolation.prOut Pr] else []),
    ?_, ?_, ?_⟩
  · simp only [gnielinski_from, parseFloat]
    rw [if_neg (not_le.mpr (div_pos hd (by norm_num))), if_neg hden]
  · by_cases hA : 3000 < Re ∧ Re < 5000000 <;> by_cases hB : 0.5 ≤ Pr ∧ Pr ≤ 2000 <;>
      simp [hA, hB]
  · by_cases hA : 3000 < Re ∧ Re < 5000000 <;> by_cases hB : 0.5 ≤ Pr ∧ Pr ≤ 2000 <;>
      simp [hA, hB]

/-- In a saturated-mode calculation with a quality supplied, every query
of a successful run other than the speed-of-sound (`'A'`) query was
answered by the oracle. -/
theorem okAll_nonA_twophase (ops : FloatOps) (oracle : Oracle) (fl basis : String)
    (tK pK dmm vms : RawField) (qv : ℚ) :
    OkAll (fun q => q.prop = "A" ∨ (oracle q).isSome = true)
      (calculate_properties ops oracle
        ⟨fl, "Saturated", basis, tK, pK, dmm, vms, RawField.num qv⟩) := by
  unfold calculate_properties
  apply okAll_bind _ _ _ (okAll_liftE _ _)
  intro dmv
  apply okAll_bind _ _ _ (okAll_liftE _ _)
  intro uv
  rw [if_pos rfl]
  show OkAll _ (calculate_saturated_properties ops oracle _ _ _)
  unfold calculate_saturated_properties
  rw [if_neg (fun hcon => RawField.noConfusion hcon)]
  unfold calculate_twophase_properties
  apply okAll_bind _ _ _ (okAll_liftE _ _)
  intro Q
  unfold twophase_at resolve_saturation_TP
  apply okAll_bind
  · apply okAll_ite
    · apply okAll_bind _ _ _ (okAll_liftE _ _)
      intro T
      apply okAll_bind _ _ _
        (okAll_query _ _ _ _ _ _ _ _ (fun v hv => Or.inr (by rw [hv]; rfl)))
      intro P_Pa
      exact okAll_pure _ _
    · apply okAll_bind _ _ _ (okAll_liftE _ _)
      intro Pk
      apply okAll_bind _ _ _
        (okAll_query _ _ _ _ _ _ _ _ (fun v hv => Or.inr (by rw [hv]; rfl)))
      intro T
      exact okAll_pure _ _
  · rintro ⟨T_K, P_kPa⟩
    apply okAll_bind _ _ _
      (okAll_query _ _ _ _ _ _ _ _ (fun v hv => Or.inr (by rw [hv]; rfl)))
    intro rho
    apply okAll_bind _ _ _
      (okAll_query _ _ _ _ _ _ _ _ (fun v hv => Or.inr (by rw [hv]; rfl)))
    intro mu
    apply okAll_bind _ _ _
      (okAll_query _ _ _ _ _ _ _ _ (fun v hv => Or.inr (by rw [hv]; rfl)))
    intro cp
    apply okAll_bind _ _ _
      (okAll_query _ _ _ _ _ _ _ _ (fun v hv => Or.inr (by rw [hv]; rfl)))
    intro cv
    apply okAll_bind _ _ _
      (okAll_query _ _ _ _ _ _ _ _ (fun v hv => Or.inr (by rw [hv]; rfl)))
    intro k
    apply okAll_bind _ _ _
      (okAll_query _ _ _ _ _ _ _ _ (fun v hv => Or.inr (by rw [hv]; rfl)))
    intro h
    apply okAll_bind _ _ _
      (okAll_query _ _ _ _ _ _ _ _ (fun v hv => Or.inr (by rw [hv]; rfl)))
    intro s
    apply okAll_bind _ _ _ (okAll_tryQuery _ _ _ _ _ _ _ _ (Or.inl rfl))
    intro sound
    apply okAll_bind _ _ _
      (okAll_query _ _ _ _ _ _ _ _ (fun v hv => Or.inr (by rw [hv]; rfl)))
    intro sigma
    exact okAll_pure _ _

/-- In a non-saturated calculation, every query of a successful run other
than the speed-of-sound (`'A'`) query was answered by the oracle (there,
the `'A'` query succeeded as well, since its failure is fatal). -/
theorem okAll_nonA_nonsat (ops : FloatOps) (oracle : Oracle) (fl basis : String)
    (tK pK dmm vms qf : RawField) :
    OkAll (fun q => q.prop = "A" ∨ (oracle q).isSome = true)
      (calculate_properties ops oracle
        ⟨fl, "Non-Saturated", basis, tK, pK, dmm, vms, qf⟩) := by
  unfold calculate_properties
  apply okAll_bind _ _ _ (okAll_liftE _ _)
  intro dmv
  apply okAll_bind _ _ _ (okAll_liftE _ _)
  intro uv
  rw [if_neg (by decide : ¬ ("Non-Saturated" = "Saturated"))]
  show OkAll _ (calculate_nonsaturated_properties ops oracle _ _ _)
  unfold calculate_nonsaturated_properties
  apply okAll_bind _ _ _ (okAll_liftE _ _)
  intro T_K
  apply okAll_bind _ _ _ (okAll_liftE _ _)
  intro P_kPa
  apply okAll_bind _ _ _
    (okAll_query _ _ _ _ _ _ _ _ (fun v hv => Or.inr (by rw [hv]; rfl)))
  intro T_sat
  apply okAll_bind _ _ _
    (okAll_query _ _ _ _ _ _ _ _ (fun v hv => Or.inr (by rw [hv]; rfl)))
  intro rho
  apply okAll_bind _ _ _
    (okAll_query _ _ _ _ _ _ _ _ (fun v hv => Or.inr (by rw [hv]; rfl)))
  intro mu
  apply okAll_bind _ _ _
    (okAll_query _ _ _ _ _ _ _ _ (fun v hv => Or.inr (by rw [hv]; rfl)))
  intro cp
  apply okAll_bind _ _ _
    (okAll_query _ _ _ _ _ _ _ _ (fun v hv => Or.inr (by rw [hv]; rfl)))
  intro cv
  apply okAll_bind _ _ _
    (okAll_query _ _ _ _ _ _ _ _ (fun v hv => Or.inr (by rw [hv]; rfl)))
  intro k
  apply okAll_bind _ _ _
    (okAll_query _ _ _ _ _ _ _ _ (fun v hv => Or.inr (by rw [hv]; rfl)))
  intro h
  apply okAll_bind _ _ _
    (okAll_query _ _ _ _ _ _ _ _ (fun v hv => Or.inr (by rw [hv]; rfl)))
  intro s
  apply okAll_bind _ _ _
    (okAll_query _ _ _ _ _ _ _ _ (fun v hv => Or.inr (by rw [hv]; rfl)))
  intro sound
  exact okAll_pure _ _

/-- C2: in the saturated-with-quality (two-phase) branch a failing
speed-of-sound query is caught and recorded as an explicitly absent value
(`none`) in an otherwise successful result; in non-saturated mode the same
failure is fatal and surfaces as a property-lookup error on the `'A'`
query; and in either branch no other oracle failure is swallowed: every
non-`'A'` query issued during a successful run was answered. -/
theorem sound_speed_failure_two_phase_swallowed_nonsat_fatal :
    (∀ (ops : FloatOps) (f : Query → ℚ) (fl : String) (t dv uv qv : ℚ) (pK : RawField),
        0 ≤ qv → qv ≤ 1 →
      ∃ pr dims,
        ((calculate_properties ops (oracleNoSound f)
            ⟨fl, "Saturated", "T", .num t, pK, .num dv, .num uv, .num qv⟩).run).1
          = Except.ok (.twoPhase t (f ⟨"P", "T", t, "Q", qv, fl⟩ / 1000) qv fl pr dims) ∧
        pr.sound = none) ∧
    (∀ (ops : FloatOps) (f : Query → ℚ) (fl basis : String) (t p dv uv : ℚ)
        (qf : RawField),
      ((calculate_properties ops (oracleNoSound f)
          ⟨fl, "Non-Saturated", basis, .num t, .num p, .num dv, .num uv, qf⟩).run).1
        = Except.error (CalcError.propertyLookup ⟨"A", "T", t, "P", p * 1000, fl⟩)) ∧
    (∀ (ops : FloatOps) (oracle : Oracle) (fl basis : String)
        (tK pK dmm vms : RawField) (qv : ℚ) (r : CalcResult),
      ((calculate_properties ops oracle
          ⟨fl, "Saturated", basis, tK, pK, dmm, vms, RawField.num qv⟩).run).1
        = Except.ok r →
      List.Forall (fun q => q.prop = "A" ∨ (oracle q).isSome = true)
        ((calculate_properties ops oracle
            ⟨fl, "Saturated", basis, tK, pK, dmm, vms, RawField.num qv⟩).run).2) ∧
    (∀ (ops : FloatOps) (oracle : Oracle) (fl basis : String)
        (tK pK dmm vms qf : RawField) (r : CalcResult),
      ((calculate_properties ops oracle
          ⟨fl, "Non-Saturated", basis, tK, pK, dmm, vms, qf⟩).run).1
        = Except.ok r →
      List.Forall (fun q => q.prop = "A" ∨ (oracle q).isSome = true)
        ((calculate_properties ops oracle
            ⟨fl, "Non-Saturated", basis, tK, pK, dmm, vms, qf⟩).run).2) := by
  refine ⟨?_, ?_, ?_, ?_⟩
  · intro ops f fl t dv uv qv pK h0 h1
    have h2 : (calculate_properties ops (oracleNoSound f)
        ⟨fl, "Saturated", "T", .num t, pK, .num dv, .num uv, .num qv⟩).run
        = twophase_at ops (oracleNoSound f)
            ⟨fl, "Saturated", "T", .num t, pK, .num dv, .num uv, .num qv⟩
            qv (dv / 1000) uv [] := by
      show calculate_twophase_properties ops (oracleNoSound f)
          ⟨fl, "Saturated", "T", .num t, pK, .num dv, .num uv, .num qv⟩ (dv / 1000) uv []
        = _
      exact twophase_eval _ _ _ _ _ _ _ (parseQuality_ok qv h0 h1)
    rw [congrArg Prod.fst h2]
    exact ⟨⟨f ⟨"D", "T", t, "Q", qv, fl⟩, f ⟨"V", "T", t, "Q", qv, fl⟩,
      f ⟨"C", "T", t, "Q", qv, fl⟩, f ⟨"CVMASS", "T", t, "Q", qv, fl⟩,
      f ⟨"L", "T", t, "Q", qv, fl⟩, f ⟨"H", "T", t, "Q", qv, fl⟩,
      f ⟨"S", "T", t, "Q", qv, fl⟩, none⟩, _, rfl, rfl⟩
  · intro ops f fl basis t p dv uv qf
    rfl
  · intro ops oracle fl basis tK pK dmm vms qv r hok
    rw [List.forall_iff_forall_mem]
    intro q hq
    have hpair : (calculate_properties ops oracle
        ⟨fl, "Saturated", basis, tK, pK, dmm, vms, RawField.num qv⟩) []
        = (Except.ok r, ((calculate_properties ops oracle
            ⟨fl, "Saturated", basis, tK, pK, dmm, vms, RawField.num qv⟩).run).2) := by
      rw [← hok]
      rfl
    rcases okAll_nonA_twophase ops oracle fl basis tK pK dmm vms qv [] r _ hpair q hq
      with h | h
    · exact absurd h (List.not_mem_nil q)
    · exact h
  · intro ops oracle fl basis tK pK dmm vms qf r hok
    rw [List.forall_iff_forall_mem]
    intro q hq
    have hpair : (calculate_properties ops oracle
        ⟨fl, "Non-Saturated", basis, tK, pK, dmm, vms, qf⟩) []
        = (Except.ok r, ((calculate_properties ops oracle
            ⟨fl, "Non-Saturated", basis, tK, pK, dmm, vms, qf⟩).run).2) := by
      rw [← hok]
      rfl
    rcases okAll_nonA_nonsat ops oracle fl basis tK pK dmm vms qf [] r _ hpair q hq
      with h | h
    · exact absurd h (List.not_mem_nil q)
    · exact h

/-- C8: in every mode, a dimensionless-number division with a zero
denominator yields 0 instead of an error: Re = 0 when μ = 0, Pr = 0 when
k = 0, Bo = We = Ca = 0 when σ = 0 (Ca alone in the two-phase branch),
and Fr = 0 when g·D ≤ 0; with a total oracle the calculation still
succeeds on these degenerate denominators. -/
theorem dimensionless_division_by_zero_policy :
    (∀ (ops : FloatOps) (f : Query → ℚ) (fl : String) (t dv uv : ℚ) (pK : RawField),
      ∃ liq vap hfg dims,
        ((calculate_properties ops (fun q => some (f q))
            ⟨fl, "Saturated", "T", .num t, pK, .num dv, .num uv, .empty⟩).run).1
          = Except.ok (.saturated t (f ⟨"P", "T", t, "Q", 0, fl⟩ / 1000) fl
              liq vap hfg dims) ∧
        (f ⟨"V", "T", t, "Q", 0, fl⟩ = 0 → dims.Re_l = 0) ∧
        (f ⟨"L", "T", t, "Q", 0, fl⟩ = 0 → dims.Pr_l = 0) ∧
        (f ⟨"I", "T", t, "Q", 0, fl⟩ = 0 → dims.Bo = 0 ∧ dims.We_l = 0 ∧ dims.Ca_l = 0) ∧
        (9.81 * (dv / 1000) ≤ 0 → dims.Fr_l = 0)) ∧
    (∀ (ops : FloatOps) (f : Query → ℚ) (fl : String) (t dv uv qv : ℚ) (pK : RawField),
        0 ≤ qv → qv ≤ 1 →
      ∃ pr dims,
        ((calculate_properties ops (fun q => some (f q))
            ⟨fl, "Saturated", "T", .num t, pK, .num dv, .num uv, .num qv⟩).run).1
          = Except.ok (.twoPhase t (f ⟨"P", "T", t, "Q", qv, fl⟩ / 1000) qv fl pr dims) ∧
        (f ⟨"V", "T", t, "Q", qv, fl⟩ = 0 → dims.Re = 0) ∧
        (f ⟨"L", "T", t, "Q", qv, fl⟩ = 0 → dims.Pr = 0) ∧
        (f ⟨"I", "T", t, "Q", 0, fl⟩ = 0 → dims.Ca = 0) ∧
        (9.81 * (dv / 1000) ≤ 0 → dims.Fr = 0)) ∧
    (∀ (ops : FloatOps) (f : Query → ℚ) (fl basis : String) (t p dv uv : ℚ)
        (qf : RawField),
      ∃ props dims,
        ((calculate_properties ops (fun q => some (f q))
            ⟨fl, "Non-Saturated", basis, .num t, .num p, .num dv, .num uv, qf⟩).run).1
          = Except.ok (.nonSaturated t p fl
              (if t < f ⟨"T", "P", p * 1000, "Q", 0, fl⟩ then "Subcooled Liquid"
               else "Superheated Vapor") props dims) ∧
        (f ⟨"V", "T", t, "P", p * 1000, fl⟩ = 0 → dims.Re = 0) ∧
        (f ⟨"L", "T", t, "P", p * 1000, fl⟩ = 0 → dims.Pr = 0) ∧
        (9.81 * (dv / 1000) ≤ 0 → dims.Fr = 0)) := by
  refine ⟨?_, ?_, ?_⟩
  · intro ops f fl t dv uv pK
    refine ⟨_, _, _, _, rfl, ?_, ?_, ?_, ?_⟩
    · intro hz
      simp [hz]
    · intro hz
      simp [hz]
    · intro hz
      simp [hz]
    · intro hz
      simp [not_lt.mpr hz]
  · intro ops f fl t dv uv qv pK h0 h1
    have h2 : (calculate_properties ops (fun q => some (f q))
        ⟨fl, "Saturated", "T", .num t, pK, .num dv, .num uv, .num qv⟩).run
        = twophase_at ops (fun q => some (f q))
            ⟨fl, "Saturated", "T", .num t, pK, .num dv, .num uv, .num qv⟩
            qv (dv / 1000) uv [] := by
      show calculate_twophase_properties ops (fun q => some (f q))
          ⟨fl, "Saturated", "T", .num t, pK, .num dv, .num uv, .num qv⟩ (dv / 1000) uv []
        = _
      exact twophase_eval _ _ _ _ _ _ _ (parseQuality_ok qv h0 h1)
    rw [congrArg Prod.fst h2]
    refine ⟨_, _, rfl, ?_, ?_, ?_, ?_⟩
    · intro hz
      simp [hz]
    · intro hz
      simp [hz]
    · intro hz
      simp [hz]
    · intro hz
      simp [not_lt.mpr hz]
  · intro ops f fl basis t p dv uv qf
    refine ⟨_, _, rfl, ?_, ?_, ?_⟩
    · intro hz
      simp [hz]
    · intro hz
      simp [hz]
    · intro hz
      simp [not_lt.mpr hz]
